import Mathlib

/-!
Verification of the d8tahaven capture pipeline.

The development shallowly embeds the pipeline's core modules:

* `src/shared/embeddings.py` — embedding generation with retry/backoff;
* `src/capture/file_extractor.py` — text extraction and encoding fallback;
* `src/storage/models.py` — the `ContentItem`/`Embedding` data model;
* `src/capture/api.py` — the `capture_content` and `capture_file` route
  handlers (the capture orchestrator).

Python strings are modelled as `List Char` so that every string operation the
code performs (strip, lower, suffix splitting) is a structurally recursive,
kernel-computable function.  External collaborators (the OpenAI provider,
`chardet`, the byte decoder, SHA-256, and the PDF/DOCX parsers) are modelled
as function parameters: the code under verification never inspects their
internals, only their classified outcomes.  Floating-point quantities are
modelled exactly: retry delays in whole seconds (the code only ever produces
`1.0 * 2^k`), and detection confidences as rationals.
-/

namespace D8

/-- Python strings, modelled as lists of characters. -/
abbrev PyStr := List Char

/-- Convenience embedding of a Lean string literal into `PyStr`. -/
def pystr (s : String) : PyStr := s.data

/-- Python `str.strip()`: drop leading and trailing whitespace. -/
def pyStrip (s : PyStr) : PyStr :=
  ((s.dropWhile Char.isWhitespace).reverse.dropWhile Char.isWhitespace).reverse

/-- Python `str.lower()`. -/
def pyLower (s : PyStr) : PyStr := s.map Char.toLower

/-- Python `s.rsplit(".", 1)[-1]`: the part of `s` after the last `'.'`
(or all of `s` when it has no dot; the callers only use it under an
`"." in s` guard). -/
def afterLastDot (s : PyStr) : PyStr :=
  (s.reverse.takeWhile (fun c => c ≠ '.')).reverse

/-! ## Embedding generator — `src/shared/embeddings.py` -/

/-- Constant `EMBEDDING_MODEL = "text-embedding-3-small"` (embeddings.py line 14). -/
def EMBEDDING_MODEL : PyStr := pystr "text-embedding-3-small"

/-- Constant `EMBEDDING_DIMENSIONS = 1536` (embeddings.py line 15). -/
def EMBEDDING_DIMENSIONS : Nat := 1536

/-- Constant `MAX_RETRIES = 3` (embeddings.py line 16). -/
def MAX_RETRIES : Nat := 3

/-- Constant `INITIAL_RETRY_DELAY = 1.0` seconds (embeddings.py line 17).  Delays are
modelled in whole seconds: the code only ever computes `1.0 * 2^k`, which is
exact, so nothing is lost by using `Nat`. -/
def INITIAL_RETRY_DELAY : Nat := 1

/-- The outcome of one provider call, as discriminated by the `except` arms of
`generate_embedding` (embeddings.py lines 88-170): a response carrying a
vector, `RateLimitError`, `APIConnectionError`, `APIError` (with its optional
`status_code` attribute), or any other unexpected exception. -/
inductive ProviderOutcome where
  | success (v : List Rat)
  | rateLimitError
  | apiConnectionError
  | apiError (statusCode : Option Nat)
  | otherException
deriving DecidableEq

/-- The underlying cause wrapped by the `except Exception` arm
(embeddings.py lines 163-170): either the dimension-mismatch
`EmbeddingError` raised inside the `try` block (lines 96-100), or an
arbitrary unexpected exception out of the provider call. -/
inductive EmbCause where
  | dimensionMismatch (got expected : Nat)
  | providerException
deriving DecidableEq

/-- The distinct `raise EmbeddingError(...)` sites of `generate_embedding`.
Note that the dimension-mismatch error raised inside the `try` block is
itself caught by the `except Exception` arm and re-wrapped, so it surfaces
as `wrappedUnexpected` (embeddings.py lines 96-100 and 163-170). -/
inductive EmbError where
  | rateLimitExceeded (attempts : Nat)
  | apiConnectionFailed (attempts : Nat)
  | apiClientError (statusCode : Option Nat)
  | apiErrorExhausted (attempts : Nat) (statusCode : Option Nat)
  | wrappedUnexpected (cause : EmbCause)
  | unknownError
deriving DecidableEq

/-- Result of `generate_embedding`: a vector, or a raised `EmbeddingError`. -/
inductive EmbedResult where
  | ok (v : List Rat)
  | err (e : EmbError)
deriving DecidableEq

/-- A complete run of `generate_embedding`: its result, how many provider
calls were made, and the sequence of `time.sleep` delays, in order. -/
structure EmbRun where
  result : EmbedResult
  attemptsMade : Nat
  sleeps : List Nat
deriving DecidableEq

/-- The 4xx test `hasattr(e, "status_code") and 400 <= e.status_code < 500`
(embeddings.py line 152). -/
def isClientError (statusCode : Option Nat) : Bool :=
  match statusCode with
  | some s => 400 ≤ s && s < 500
  | none => false

/-- The retry loop `for attempt in range(max_retries)` of `generate_embedding`
(embeddings.py lines 79-173).  `fuel` counts the iterations left, i.e.
`max_retries - attempt`; in the `f + 1` pattern the Python retry test
`attempt < max_retries - 1` is exactly `f ≠ 0`.  `provider` gives the
classified outcome of the provider call on each (0-based) attempt.
Falling out of the loop (`fuel = 0`) is the unreachable final
`raise EmbeddingError("Failed to generate embedding (unknown error)")`. -/
def genEmbedLoop (provider : Nat → ProviderOutcome) (maxRetries : Nat) :
    Nat → Nat → Nat → List Nat → EmbRun
  | 0, attempt, _, sleeps => ⟨.err .unknownError, attempt, sleeps⟩
  | f + 1, attempt, delay, sleeps =>
    match provider attempt with
    | .success v =>
      if v.length = EMBEDDING_DIMENSIONS then
        ⟨.ok v, attempt + 1, sleeps⟩
      else
        ⟨.err (.wrappedUnexpected (.dimensionMismatch v.length EMBEDDING_DIMENSIONS)),
          attempt + 1, sleeps⟩
    | .rateLimitError =>
      if f = 0 then ⟨.err (.rateLimitExceeded maxRetries), attempt + 1, sleeps⟩
      else genEmbedLoop provider maxRetries f (attempt + 1) (delay * 2) (sleeps ++ [delay])
    | .apiConnectionError =>
      if f = 0 then ⟨.err (.apiConnectionFailed maxRetries), attempt + 1, sleeps⟩
      else genEmbedLoop provider maxRetries f (attempt + 1) (delay * 2) (sleeps ++ [delay])
    | .apiError st =>
      if isClientError st then ⟨.err (.apiClientError st), attempt + 1, sleeps⟩
      else if f = 0 then ⟨.err (.apiErrorExhausted maxRetries st), attempt + 1, sleeps⟩
      else genEmbedLoop provider maxRetries f (attempt + 1) (delay * 2) (sleeps ++ [delay])
    | .otherException =>
      ⟨.err (.wrappedUnexpected .providerException), attempt + 1, sleeps⟩

/-- Model of `generate_embedding(text, model, max_retries)` (embeddings.py lines
41-173), abstracted over the provider oracle.  The pre-loop text truncation
(lines 66-74) only shortens the text sent to the provider and is invisible to
the retry/validation logic modelled here. -/
def generate_embedding (provider : Nat → ProviderOutcome) (maxRetries : Nat) : EmbRun :=
  genEmbedLoop provider maxRetries maxRetries 0 INITIAL_RETRY_DELAY []

/-- Model of `get_model_version()` (embeddings.py lines 176-183). -/
def get_model_version : PyStr := EMBEDDING_MODEL

/-- Model of `get_embedding_dimensions()` (embeddings.py lines 186-193). -/
def get_embedding_dimensions : Nat := EMBEDDING_DIMENSIONS

/-- Any successful result of the retry loop has passed the dimension check. -/
theorem genEmbedLoop_ok_length (provider : Nat → ProviderOutcome) (maxRetries : Nat) :
    ∀ fuel attempt delay sleeps v,
      (genEmbedLoop provider maxRetries fuel attempt delay sleeps).result = .ok v →
      v.length = EMBEDDING_DIMENSIONS := by
  intro fuel
  induction fuel with
  | zero =>
    intro attempt delay sleeps v h
    simp [genEmbedLoop] at h
  | succ f ih =>
    intro attempt delay sleeps v h
    rw [genEmbedLoop] at h
    cases hp : provider attempt with
    | success w =>
      rw [hp] at h
      simp only [] at h
      by_cases hl : w.length = EMBEDDING_DIMENSIONS
      · simp only [if_pos hl] at h
        cases h
        exact hl
      · simp only [if_neg hl] at h
        cases h
    | rateLimitError =>
      rw [hp] at h
      simp only [] at h
      by_cases hf : f = 0
      · simp only [if_pos hf] at h
        cases h
      · simp only [if_neg hf] at h
        exact ih _ _ _ _ h
    | apiConnectionError =>
      rw [hp] at h
      simp only [] at h
      by_cases hf : f = 0
      · simp only [if_pos hf] at h
        cases h
      · simp only [if_neg hf] at h
        exact ih _ _ _ _ h
    | apiError st =>
      rw [hp] at h
      simp only [] at h
      by_cases hc : isClientError st = true
      · simp only [if_pos hc] at h
        cases h
      · simp only [if_neg hc] at h
        by_cases hf : f = 0
        · simp only [if_pos hf] at h
          cases h
        · simp only [if_neg hf] at h
          exact ih _ _ _ _ h
    | otherException =>
      rw [hp] at h
      simp only [] at h
      cases h

/-- C4: `generate_embedding` classifies failures per attempt.  A provider
error with a 4xx client-fault status fails immediately as an
`EmbeddingError` after a single attempt with no sleeps; rate-limit and
connection failures are retried with delays starting at the base delay and
doubling each attempt, up to the ceiling of 3 total attempts, and after the
final allowed attempt the run fails with an `EmbeddingError` carrying the
attempt count and the last failure class; a retried attempt that then
succeeds returns the vector after the backoff sleeps; and any other
unexpected failure is wrapped and raised immediately without retry. -/
theorem c4_retry_classification :
    (∀ provider s, provider 0 = ProviderOutcome.apiError (some s) →
      400 ≤ s → s < 500 →
      generate_embedding provider MAX_RETRIES =
        ⟨.err (.apiClientError (some s)), 1, []⟩) ∧
    (∀ provider, provider 0 = ProviderOutcome.rateLimitError →
      provider 1 = ProviderOutcome.rateLimitError →
      provider 2 = ProviderOutcome.rateLimitError →
      generate_embedding provider MAX_RETRIES =
        ⟨.err (.rateLimitExceeded 3), 3,
          [INITIAL_RETRY_DELAY, INITIAL_RETRY_DELAY * 2]⟩) ∧
    (∀ provider, provider 0 = ProviderOutcome.apiConnectionError →
      provider 1 = ProviderOutcome.apiConnectionError →
      provider 2 = ProviderOutcome.apiConnectionError →
      generate_embedding provider MAX_RETRIES =
        ⟨.err (.apiConnectionFailed 3), 3,
          [INITIAL_RETRY_DELAY, INITIAL_RETRY_DELAY * 2]⟩) ∧
    (∀ provider v, provider 0 = ProviderOutcome.rateLimitError →
      provider 1 = ProviderOutcome.success v →
      v.length = EMBEDDING_DIMENSIONS →
      generate_embedding provider MAX_RETRIES =
        ⟨.ok v, 2, [INITIAL_RETRY_DELAY]⟩) ∧
    (∀ provider s, provider 0 = ProviderOutcome.rateLimitError →
      provider 1 = ProviderOutcome.apiError (some s) →
      400 ≤ s → s < 500 →
      generate_embedding provider MAX_RETRIES =
        ⟨.err (.apiClientError (some s)), 2, [INITIAL_RETRY_DELAY]⟩) ∧
    (∀ provider, provider 0 = ProviderOutcome.otherException →
      generate_embedding provider MAX_RETRIES =
        ⟨.err (.wrappedUnexpected .providerException), 1, []⟩) := by
  refine ⟨?_, ?_, ?_, ?_, ?_, ?_⟩
  · intro provider s h0 h4 h5
    have hc : isClientError (some s) = true := by
      simp [isClientError]
      exact ⟨h4, h5⟩
    simp [generate_embedding, MAX_RETRIES, genEmbedLoop, h0, hc]
  · intro provider h0 h1 h2
    simp [generate_embedding, MAX_RETRIES, INITIAL_RETRY_DELAY, genEmbedLoop, h0, h1, h2]
  · intro provider h0 h1 h2
    simp [generate_embedding, MAX_RETRIES, INITIAL_RETRY_DELAY, genEmbedLoop, h0, h1, h2]
  · intro provider v h0 h1 hl
    simp [generate_embedding, MAX_RETRIES, INITIAL_RETRY_DELAY, genEmbedLoop, h0, h1, hl]
  · intro provider s h0 h1 h4 h5
    have hc : isClientError (some s) = true := by
      simp [isClientError]
      exact ⟨h4, h5⟩
    simp [generate_embedding, MAX_RETRIES, INITIAL_RETRY_DELAY, genEmbedLoop, h0, h1, hc]
  · intro provider h0
    simp [generate_embedding, MAX_RETRIES, genEmbedLoop, h0]

/-- Witness for C4: a provider that rate-limits on all three attempts makes
`generate_embedding` sleep 1 s then 2 s and fail carrying the attempt count. -/
theorem c4_retry_classification_witness :
    generate_embedding (fun _ => ProviderOutcome.rateLimitError) MAX_RETRIES =
      ⟨.err (.rateLimitExceeded 3), 3, [INITIAL_RETRY_DELAY, INITIAL_RETRY_DELAY * 2]⟩ :=
  c4_retry_classification.2.1 (fun _ => ProviderOutcome.rateLimitError) rfl rfl rfl

/-- C8: whenever `generate_embedding` returns successfully the vector's
length equals the expected fixed dimensionality (1536); a provider response
of any other length is turned into an `EmbeddingError` (wrapped by the
`except Exception` arm), never accepted. -/
theorem c8_dimension_guard :
    (∀ provider maxRetries v,
      (generate_embedding provider maxRetries).result = EmbedResult.ok v →
      v.length = EMBEDDING_DIMENSIONS) ∧
    (∀ provider v, provider 0 = ProviderOutcome.success v →
      v.length ≠ EMBEDDING_DIMENSIONS →
      generate_embedding provider MAX_RETRIES =
        ⟨.err (.wrappedUnexpected (.dimensionMismatch v.length EMBEDDING_DIMENSIONS)),
          1, []⟩) := by
  constructor
  · intro provider maxRetries v h
    exact genEmbedLoop_ok_length provider maxRetries _ _ _ _ _ h
  · intro provider v h0 hl
    simp [generate_embedding, MAX_RETRIES, genEmbedLoop, h0, hl]

/-- Witness for C8: a provider returning an empty vector on the first
attempt makes `generate_embedding` fail with a wrapped dimension-mismatch
error after one attempt. -/
theorem c8_dimension_guard_witness :
    generate_embedding (fun _ => ProviderOutcome.success []) MAX_RETRIES =
      ⟨.err (.wrappedUnexpected (.dimensionMismatch 0 EMBEDDING_DIMENSIONS)), 1, []⟩ := by
  have h := c8_dimension_guard.2 (fun _ => ProviderOutcome.success []) [] rfl (by decide)
  simpa using h

/-! ## Text extractor — `src/capture/file_extractor.py` -/

/-- Constant SUPPORTED_EXTENSIONS, the set of allowed suffixes (file_extractor.py
line 11), listed in source order. -/
def SUPPORTED_EXTENSIONS : List PyStr := [pystr ".pdf", pystr ".docx", pystr ".txt"]

/-- Constant `MAX_FILE_SIZE = 10 * 1024 * 1024` (file_extractor.py line 12). -/
def MAX_FILE_SIZE : Nat := 10 * 1024 * 1024

/-- The result of `chardet.detect`: a possibly absent encoding name and a
confidence (a float in the source, modelled as a rational). -/
structure Detection where
  encoding : Option PyStr
  confidence : Rat

/-- The Python truthiness test `if detected_encoding and confidence > 0.7`
(file_extractor.py line 109): the detected encoding is tried first only when
it is present, non-empty, and the confidence strictly exceeds `0.7`. -/
def initialEncodings (d : Detection) : List PyStr :=
  match d.encoding with
  | some e => if e ≠ [] ∧ d.confidence > 7/10 then [e] else []
  | none => []

/-- The fixed fallback list `['utf-8', 'utf-16', 'latin-1', 'cp1252',
'ascii']` (file_extractor.py line 113). -/
def FALLBACK_ENCODINGS : List PyStr :=
  [pystr "utf-8", pystr "utf-16", pystr "latin-1", pystr "cp1252", pystr "ascii"]

/-- The fallback-appending loop (file_extractor.py lines 113-115): each
common encoding is appended unless its lowercase form is already present in
the list built so far. -/
def addFallbacks (tried : List PyStr) : List PyStr :=
  FALLBACK_ENCODINGS.foldl
    (fun acc enc => if pyLower enc ∈ acc.map pyLower then acc else acc ++ [enc])
    tried

/-- The complete `encodings_to_try` list (file_extractor.py lines 105-115). -/
def encodings_to_try (d : Detection) : List PyStr :=
  addFallbacks (initialEncodings d)

/-- The `ExtractionError` raised when every decode fails (file_extractor.py
lines 128-131): it names every encoding attempted plus the detector's best
guess and its confidence. -/
structure TxtFailure where
  triedEncodings : List PyStr
  detectedEncoding : Option PyStr
  confidence : Rat

/-- Result of `extract_text_from_txt`. -/
inductive TxtResult where
  | ok (text : PyStr)
  | err (e : TxtFailure)

/-- Model of `extract_text_from_txt(file_content)` (file_extractor.py lines 79-131),
abstracted over the `chardet` detector and the byte decoder (`bytes.decode`,
where `none` stands for `UnicodeDecodeError`/`LookupError`).  Each encoding
in `encodings_to_try` is tried in order and the first successful decode is
returned. -/
def extract_text_from_txt (detect : List Nat → Detection)
    (decode : PyStr → List Nat → Option PyStr) (file_content : List Nat) : TxtResult :=
  let d := detect file_content
  let encs := encodings_to_try d
  match encs.findSome? (fun enc => decode enc file_content) with
  | some text => .ok text
  | none => .err ⟨encs, d.encoding, d.confidence⟩

/-- Generalized shape of the fallback-appending loop: starting from an
accumulator `e :: kept` whose tail is lowercase-disjoint from the remaining
fallbacks, the loop appends exactly those fallbacks whose lowercase form
differs from that of `e`. -/
theorem addFallbacks_go (e : PyStr) :
    ∀ (L kept : List PyStr),
      L.Pairwise (fun a b => pyLower a ≠ pyLower b) →
      (∀ f ∈ L, ∀ k ∈ kept, pyLower f ≠ pyLower k) →
      L.foldl (fun acc enc => if pyLower enc ∈ acc.map pyLower then acc else acc ++ [enc])
        (e :: kept) =
      e :: (kept ++ L.filter (fun f => pyLower f ≠ pyLower e)) := by
  intro L
  induction L with
  | nil =>
    intro kept _ _
    simp
  | cons f L' ih =>
    intro kept hpw hdisj
    have hpw' : L'.Pairwise (fun a b => pyLower a ≠ pyLower b) :=
      (List.pairwise_cons.mp hpw).2
    have hfk : ∀ k ∈ kept, pyLower f ≠ pyLower k := by
      intro k hk
      exact hdisj f (List.mem_cons_self f L') k hk
    by_cases hef : pyLower f = pyLower e
    · have hmem : pyLower f ∈ (e :: kept).map pyLower := by
        simp [hef]
      rw [List.foldl_cons, if_pos hmem]
      have := ih kept hpw' (fun x hx k hk => hdisj x (List.mem_cons_of_mem f hx) k hk)
      rw [this]
      simp [List.filter_cons, hef]
    · have hmem : pyLower f ∉ (e :: kept).map pyLower := by
        simp only [List.map_cons, List.mem_cons]
        rintro (h | h)
        · exact hef h
        · obtain ⟨k, hk, hke⟩ := List.mem_map.mp h
          exact hfk k hk hke.symm
      rw [List.foldl_cons, if_neg hmem]
      have hstep : (e :: kept) ++ [f] = e :: (kept ++ [f]) := by simp
      rw [hstep]
      have hdisj' : ∀ x ∈ L', ∀ k ∈ kept ++ [f], pyLower x ≠ pyLower k := by
        intro x hx k hk
        rcases List.mem_append.mp hk with hk | hk
        · exact hdisj x (List.mem_cons_of_mem f hx) k hk
        · have hkf : k = f := by simpa using hk
          subst hkf
          exact fun h => (List.pairwise_cons.mp hpw).1 x hx h.symm
      have := ih (kept ++ [f]) hpw' hdisj'
      rw [this]
      simp [List.filter_cons, hef]

/-- When the detected encoding is tried first, the fallbacks appended after
it are exactly those whose lowercase form differs from it. -/
theorem addFallbacks_single (e : PyStr) :
    addFallbacks [e] = e :: FALLBACK_ENCODINGS.filter (fun f => pyLower f ≠ pyLower e) := by
  have h := addFallbacks_go e FALLBACK_ENCODINGS [] (by decide) (by simp)
  simpa [addFallbacks] using h

/-- If every decode in a prefix fails, `findSome?` skips the prefix. -/
theorem findSome?_skip {α β : Type} (g : α → Option β) :
    ∀ (l₁ l₂ : List α), (∀ x ∈ l₁, g x = none) →
      (l₁ ++ l₂).findSome? g = l₂.findSome? g := by
  intro l₁
  induction l₁ with
  | nil => intro l₂ _; simp
  | cons a l ih =>
    intro l₂ h
    have ha : g a = none := h a (List.mem_cons_self a l)
    simp only [List.cons_append, List.findSome?_cons, ha]
    exact ih l₂ (fun x hx => h x (List.mem_cons_of_mem a hx))

/-- C5: plain-text extraction decodes bytes by running encoding detection;
when the detected confidence strictly exceeds 0.7 (and an encoding was
detected) the detected encoding is tried first, followed by the fixed
fallback list utf-8, utf-16, latin-1, cp1252, ascii in order with
already-tried entries skipped; otherwise exactly the fallback list is tried;
the first successful decode is returned; and if every decode fails the
raised `ExtractionError` names every encoding attempted plus the detector's
best guess and its confidence. -/
theorem c5_encoding_fallback :
    (∀ d e, d.encoding = some e → e ≠ [] → d.confidence > 7/10 →
      encodings_to_try d = e :: FALLBACK_ENCODINGS.filter (fun f => pyLower f ≠ pyLower e)) ∧
    (∀ d, d.encoding = none → encodings_to_try d = FALLBACK_ENCODINGS) ∧
    (∀ d e, d.encoding = some e → ¬(e ≠ [] ∧ d.confidence > 7/10) →
      encodings_to_try d = FALLBACK_ENCODINGS) ∧
    (∀ detect decode b l₁ enc l₂ s,
      encodings_to_try (detect b) = l₁ ++ enc :: l₂ →
      (∀ x ∈ l₁, decode x b = none) → decode enc b = some s →
      extract_text_from_txt detect decode b = .ok s) ∧
    (∀ detect decode b,
      (∀ enc ∈ encodings_to_try (detect b), decode enc b = none) →
      extract_text_from_txt detect decode b =
        .err ⟨encodings_to_try (detect b), (detect b).encoding, (detect b).confidence⟩) := by
  have hbase : addFallbacks [] = FALLBACK_ENCODINGS := by decide
  refine ⟨?_, ?_, ?_, ?_, ?_⟩
  · intro d e hde he hc
    rw [encodings_to_try, initialEncodings, hde]
    simp only []
    rw [if_pos ⟨he, hc⟩]
    exact addFallbacks_single e
  · intro d hd
    rw [encodings_to_try, initialEncodings, hd]
    exact hbase
  · intro d e hde hcond
    rw [encodings_to_try, initialEncodings, hde]
    simp only []
    rw [if_neg hcond]
    exact hbase
  · intro detect decode b l₁ enc l₂ s hencs hnone hs
    rw [extract_text_from_txt]
    simp only [hencs]
    rw [findSome?_skip _ l₁ (enc :: l₂) hnone]
    simp [List.findSome?_cons, hs]
  · intro detect decode b hall
    rw [extract_text_from_txt]
    simp only [List.findSome?_eq_none_iff.mpr hall]

/-- Witness for C5: a confident utf-16 detection yields utf-16 first, then
the fallbacks with the already-tried utf-16 skipped. -/
theorem c5_encoding_fallback_witness :
    encodings_to_try ⟨some (pystr "utf-16"), 9/10⟩ =
      [pystr "utf-16", pystr "utf-8", pystr "latin-1", pystr "cp1252", pystr "ascii"] := by
  have h := c5_encoding_fallback.1 ⟨some (pystr "utf-16"), 9/10⟩ (pystr "utf-16")
    rfl (by decide) (by norm_num)
  rw [h]
  decide

/-! ## Content store — `src/storage/models.py` -/

/-- A `content_items` row (models.py lines 13-51).  The UUID primary key is
modelled as a `Nat` drawn from the store's id counter, the server timestamp
as a `Nat` tick, and the JSONB metadata as a key/value list.  The optional
`captured_at` column is never written by the capture routes and is omitted. -/
structure ContentItem where
  id : Nat
  content : PyStr
  content_hash : PyStr
  source : PyStr
  meta : List (PyStr × PyStr)
  created_at : Nat
deriving DecidableEq

/-- An `embeddings` row (models.py lines 54-90), with its foreign key to the
owning `ContentItem`. -/
structure Embedding where
  id : Nat
  content_item_id : Nat
  embedding_vector : List Rat
  model_version : PyStr
  created_at : Nat
deriving DecidableEq

/-- The durable database state: the two tables plus the id allocator and the
server clock.  Rows become visible here only at commit. -/
structure DB where
  items : List ContentItem
  embeddings : List Embedding
  nextId : Nat
  now : Nat
deriving DecidableEq

/-- The dedup lookup
`db.query(ContentItem).filter_by(content_hash=...).first()`
(api.py lines 69 and 200): a pure read. -/
def DB.lookupByHash (db : DB) (h : PyStr) : Option ContentItem :=
  db.items.find? (fun it => it.content_hash == h)

/-- Outcome of the atomic two-row insert: either the new state together with
the created item, or the `content_hash` uniqueness-constraint violation
raised at commit. -/
inductive StoreOutcome where
  | created (db : DB) (item : ContentItem)
  | uniqueViolation
deriving DecidableEq

/-- The add/flush/add/commit block (api.py lines 87-106 and 223-247): a
`ContentItem` and its `Embedding` become durable together in one commit, or
the commit fails with the `content_hash` uniqueness violation when a row
with the same hash is already committed (models.py line 31 `unique=True`).
On failure, the rollback leaves the state untouched (callers keep `db`). -/
def DB.atomicCreate (db : DB) (content contentHash src : PyStr)
    (meta : List (PyStr × PyStr)) (vec : List Rat) (modelVersion : PyStr) : StoreOutcome :=
  if db.items.any (fun it => it.content_hash == contentHash) then .uniqueViolation
  else
    let item : ContentItem := ⟨db.nextId, content, contentHash, src, meta, db.now⟩
    let emb : Embedding := ⟨db.nextId + 1, db.nextId, vec, modelVersion, db.now⟩
    .created ⟨db.items ++ [item], db.embeddings ++ [emb], db.nextId + 2, db.now⟩ item

/-- Well-formedness of the id allocator: every committed row's id (and every
embedding's foreign key) is below the allocator counter. -/
def DB.FreshIds (db : DB) : Prop :=
  (∀ it ∈ db.items, it.id < db.nextId) ∧
  (∀ e ∈ db.embeddings, e.content_item_id < db.nextId)

/-- The cross-table invariant of the data model (spec section 3): every
`ContentItem` has exactly one `Embedding` and every `Embedding` has an
owning `ContentItem`. -/
def DB.Paired (db : DB) : Prop :=
  (∀ it ∈ db.items, db.embeddings.countP (fun e => e.content_item_id == it.id) = 1) ∧
  (∀ e ∈ db.embeddings, ∃ it ∈ db.items, it.id = e.content_item_id)

/-- Hash-column consistency: every committed row's `content_hash` is the
digest of its `content` under the given hash function. -/
def DB.HashConsistent (hashFn : PyStr → PyStr) (db : DB) : Prop :=
  ∀ it ∈ db.items, it.content_hash = hashFn it.content

/-! ## Capture orchestrator — `src/capture/api.py` -/

/-- Observable side-effecting steps of a capture request, used to state
ordering properties: reading the uploaded bytes, calling the extractor,
computing the SHA-256 hash, calling the embedding generator, and attempting
the database insert. -/
inductive Ev where
  | readBytes
  | extractCall
  | hashCall
  | embedCall
  | insertCall
deriving DecidableEq

/-- The classified failure responses of the two capture routes, one
constructor per `raise HTTPException` site (plus the pydantic content
validator).  Structured fields stand for the formatted detail strings. -/
inductive CaptureError where
  | contentEmpty
  | unsupportedType (ext : PyStr) (supported : List PyStr)
  | payloadTooLarge (sizeMB limitMB : Nat)
  | extractionFailed (msg : PyStr)
  | valueRejected (msg : PyStr)
  | emptyExtracted
  | embedFailed (e : EmbError)
  | storeFailed
deriving DecidableEq

/-- The HTTP status attached to each failure (api.py docstrings and
`raise HTTPException` sites; `contentEmpty` is pydantic's 422). -/
def CaptureError.statusCode : CaptureError → Nat
  | .contentEmpty => 422
  | .unsupportedType _ _ => 415
  | .payloadTooLarge _ _ => 413
  | .extractionFailed _ => 422
  | .valueRejected _ => 415
  | .emptyExtracted => 422
  | .embedFailed _ => 500
  | .storeFailed => 500

/-- Response model `CaptureResponse` (api.py lines 34-37). -/
structure CaptureResponse where
  capture_id : Nat
  status : PyStr
  created_at : Nat
deriving DecidableEq

/-- Response model `FileCaptureResponse` (api.py lines 40-47). -/
structure FileCaptureResponse where
  capture_id : Nat
  status : PyStr
  filename : PyStr
  file_size : Nat
  content_type : PyStr
  extracted_text_preview : PyStr
  created_at : Nat
deriving DecidableEq

/-- Route result: a response or a classified error. -/
inductive CapResult (ρ : Type) where
  | ok (resp : ρ)
  | err (e : CaptureError)
deriving DecidableEq

/-- A complete run of a capture route: its result, the durable state after
the request, and the trace of observable steps in order. -/
structure CapRun (ρ : Type) where
  result : CapResult ρ
  db : DB
  events : List Ev
deriving DecidableEq

/-- Outcome of the `extract_text` collaborator as seen by `capture_file`
(api.py lines 173-184): extracted text, an `ExtractionError` (mapped to
422), or a `ValueError` for an unsupported type (mapped to 415). -/
inductive ExtractOutcome where
  | ok (text : PyStr)
  | extractionFault (msg : PyStr)
  | valueFault (msg : PyStr)
deriving DecidableEq

/-- The suffix computation shared by api.py line 152 and file_extractor.py
line 149:
`ext = "." + filename.rsplit(".", 1)[-1].lower() if "." in filename else ""`. -/
def computeExt (filename : PyStr) : PyStr :=
  if filename.contains '.' then '.' :: pyLower (afterLastDot filename) else []

/-- The preview expression of api.py lines 209 and 262:
`extracted_text[:200] + "..." if len(extracted_text) > 200 else extracted_text`. -/
def previewOf (text : PyStr) : PyStr :=
  if text.length > 200 then text.take 200 ++ pystr "..." else text

/-- Model of `capture_content` (api.py lines 49-123), with the durable state at
lookup time (`dbAtLookup`) and at commit time (`dbAtCommit`) distinguished so
that a concurrent committer between the two steps can be expressed; a
serialized request has `dbAtLookup = dbAtCommit`.  The pydantic validator
(lines 27-32) rejects whitespace-only content and strips it, so the handler
works on the trimmed text.  On a uniqueness violation at commit the generic
`except Exception` arm (lines 118-123) rolls back and answers HTTP 500
("Failed to save capture"). -/
def capture_content_at (hashFn : PyStr → PyStr) (embed : PyStr → EmbedResult)
    (modelVersion : PyStr) (content src : PyStr) (meta : List (PyStr × PyStr))
    (dbAtLookup dbAtCommit : DB) : CapRun CaptureResponse :=
  if pyStrip content = [] then ⟨.err .contentEmpty, dbAtCommit, []⟩
  else
    let text := pyStrip content
    let contentHash := hashFn text
    match dbAtLookup.lookupByHash contentHash with
    | some existing =>
      ⟨.ok ⟨existing.id, pystr "completed", existing.created_at⟩, dbAtCommit, [.hashCall]⟩
    | none =>
      match embed text with
      | .err e => ⟨.err (.embedFailed e), dbAtCommit, [.hashCall, .embedCall]⟩
      | .ok vec =>
        match dbAtCommit.atomicCreate text contentHash src meta vec modelVersion with
        | .created dbNew item =>
          ⟨.ok ⟨item.id, pystr "completed", item.created_at⟩, dbNew,
            [.hashCall, .embedCall, .insertCall]⟩
        | .uniqueViolation =>
          ⟨.err .storeFailed, dbAtCommit, [.hashCall, .embedCall, .insertCall]⟩

/-- A serialized (race-free) run of `capture_content`. -/
def capture_content (hashFn : PyStr → PyStr) (embed : PyStr → EmbedResult)
    (modelVersion : PyStr) (content src : PyStr) (meta : List (PyStr × PyStr))
    (db : DB) : CapRun CaptureResponse :=
  capture_content_at hashFn embed modelVersion content src meta db db

/-- Model of `capture_file` (api.py lines 125-275), serialized.  Order of steps is the
source's: suffix allowlist check (line 152-157) before `await file.read()`
(line 160), size check (lines 166-170) before extraction (line 174),
emptiness check (lines 187-191) before hashing (line 197), dedup lookup
(line 200) before the embedding call (line 215), then the atomic insert. -/
def capture_file (hashFn : PyStr → PyStr) (embed : PyStr → EmbedResult)
    (modelVersion : PyStr) (extractor : PyStr → List Nat → ExtractOutcome)
    (filename : PyStr) (fileContent : List Nat) (declaredType : PyStr)
    (db : DB) : CapRun FileCaptureResponse :=
  let ext := computeExt filename
  if ext ∉ SUPPORTED_EXTENSIONS then
    ⟨.err (.unsupportedType ext SUPPORTED_EXTENSIONS), db, []⟩
  else
    let fileSize := fileContent.length
    if fileSize > MAX_FILE_SIZE then
      ⟨.err (.payloadTooLarge (fileSize / (1024 * 1024)) (MAX_FILE_SIZE / (1024 * 1024))),
        db, [.readBytes]⟩
    else
      match extractor filename fileContent with
      | .extractionFault msg => ⟨.err (.extractionFailed msg), db, [.readBytes, .extractCall]⟩
      | .valueFault msg => ⟨.err (.valueRejected msg), db, [.readBytes, .extractCall]⟩
      | .ok extracted =>
        if pyStrip extracted = [] then
          ⟨.err .emptyExtracted, db, [.readBytes, .extractCall]⟩
        else
          let text := pyStrip extracted
          let contentHash := hashFn text
          match db.lookupByHash contentHash with
          | some existing =>
            ⟨.ok ⟨existing.id, pystr "completed", filename, fileSize, ext,
                previewOf text, existing.created_at⟩,
              db, [.readBytes, .extractCall, .hashCall]⟩
          | none =>
            match embed text with
            | .err e =>
              ⟨.err (.embedFailed e), db, [.readBytes, .extractCall, .hashCall, .embedCall]⟩
            | .ok vec =>
              match db.atomicCreate text contentHash (pystr "file_upload")
                  [(pystr "filename", filename),
                   (pystr "file_size", (Nat.repr fileSize).data),
                   (pystr "content_type", ext),
                   (pystr "original_content_type", declaredType)]
                  vec modelVersion with
              | .created dbNew item =>
                ⟨.ok ⟨item.id, pystr "completed", filename, fileSize, ext,
                    previewOf text, item.created_at⟩,
                  dbNew, [.readBytes, .extractCall, .hashCall, .embedCall, .insertCall]⟩
              | .uniqueViolation =>
                ⟨.err .storeFailed, db,
                  [.readBytes, .extractCall, .hashCall, .embedCall, .insertCall]⟩

/-! ## Store invariant lemmas -/

/-- A missed dedup lookup means no committed row carries the hash. -/
theorem lookup_none_beq (db : DB) (h : PyStr) (hnone : db.lookupByHash h = none) :
    ∀ it ∈ db.items, (it.content_hash == h) = false := by
  intro it hit
  have := List.find?_eq_none.mp hnone it hit
  simpa using this

/-- A missed dedup lookup means the insert-time uniqueness test is clear. -/
theorem lookup_none_any (db : DB) (h : PyStr) (hnone : db.lookupByHash h = none) :
    db.items.any (fun it => it.content_hash == h) = false := by
  rw [List.any_eq_false]
  intro it hit
  simp [lookup_none_beq db h hnone it hit]

/-- A successful atomic create preserves the pairing invariant and allocator
well-formedness: the one new `ContentItem` is created together with exactly
its one new `Embedding`. -/
theorem atomicCreate_invariants (db : DB) (content contentHash src : PyStr)
    (meta : List (PyStr × PyStr)) (vec : List Rat) (modelVersion : PyStr)
    (dbNew : DB) (item : ContentItem)
    (hfresh : db.FreshIds) (hpaired : db.Paired)
    (hc : db.atomicCreate content contentHash src meta vec modelVersion = .created dbNew item) :
    dbNew.Paired ∧ dbNew.FreshIds := by
  by_cases hany : db.items.any (fun it => it.content_hash == contentHash) = true
  · simp only [DB.atomicCreate, if_pos hany] at hc
    cases hc
  · simp only [DB.atomicCreate, if_neg hany] at hc
    cases hc
    constructor
    · constructor
      · intro it hit
        rcases List.mem_append.mp hit with hit | hit
        · have h1 : db.embeddings.countP (fun e => e.content_item_id == it.id) = 1 :=
            hpaired.1 it hit
          have hlt : it.id < db.nextId := hfresh.1 it hit
          have hne : (db.nextId == it.id) = false :=
            beq_eq_false_iff_ne.mpr (ne_of_gt hlt)
          simp [List.countP_append, List.countP_cons, h1, hne]
        · have hit' : it = ⟨db.nextId, content, contentHash, src, meta, db.now⟩ := by
            simpa using hit
          subst hit'
          have h0 : db.embeddings.countP (fun e => e.content_item_id == db.nextId) = 0 := by
            rw [List.countP_eq_zero]
            intro e he
            have hlt : e.content_item_id < db.nextId := hfresh.2 e he
            simp [beq_eq_false_iff_ne.mpr (ne_of_lt hlt)]
          simp [List.countP_append, List.countP_cons, h0]
      · intro e he
        rcases List.mem_append.mp he with he | he
        · obtain ⟨it, hit, hid⟩ := hpaired.2 e he
          exact ⟨it, List.mem_append_left _ hit, hid⟩
        · have he' : e = ⟨db.nextId + 1, db.nextId, vec, modelVersion, db.now⟩ := by
            simpa using he
          subst he'
          exact ⟨⟨db.nextId, content, contentHash, src, meta, db.now⟩,
            List.mem_append_right _ (by simp), rfl⟩
    · constructor
      · intro it hit
        rcases List.mem_append.mp hit with hit | hit
        · have := hfresh.1 it hit
          simp only []
          omega
        · have hit' : it = ⟨db.nextId, content, contentHash, src, meta, db.now⟩ := by
            simpa using hit
          subst hit'
          simp only []
          omega
      · intro e he
        rcases List.mem_append.mp he with he | he
        · have := hfresh.2 e he
          simp only []
          omega
        · have he' : e = ⟨db.nextId + 1, db.nextId, vec, modelVersion, db.now⟩ := by
            simpa using he
          subst he'
          simp only []
          omega

/-! ## Concrete stubs for witnesses -/

/-- Identity stands in for SHA-256 in concrete runs: the pipeline only ever
compares digests for equality. -/
def idHash : PyStr → PyStr := fun s => s

/-- An embedding collaborator whose call always fails. -/
def failEmbed : PyStr → EmbedResult := fun _ => .err .unknownError

/-- An embedding collaborator whose call always succeeds; the orchestrator
never inspects the returned vector. -/
def okEmbed : PyStr → EmbedResult := fun _ => .ok []

/-- The empty initial store. -/
def emptyDB : DB := ⟨[], [], 0, 0⟩

/-- A previously committed row for concrete runs, with its embedding row. -/
def demoItem : ContentItem :=
  ⟨0, pystr "Hello world", pystr "Hello world", pystr "manual_entry", [], 5⟩

/-- The embedding row owned by `demoItem`. -/
def demoEmb : Embedding := ⟨1, 0, [], EMBEDDING_MODEL, 5⟩

/-- A store already holding `demoItem` with its embedding. -/
def demoDB : DB := ⟨[demoItem], [demoEmb], 2, 7⟩

/-! ## Claims about the capture orchestrator -/

/-- C3: if the embedding call fails during a capture, afterwards the durable
state is exactly the prior state, so no `ContentItem` and no `Embedding`
exist for that content hash; more generally every failure path leaves the
durable state unchanged, and every reachable durable state keeps a
`ContentItem` and its `Embedding` existing together or not at all. -/
theorem c3_atomicity (hashFn : PyStr → PyStr) (embed : PyStr → EmbedResult)
    (modelVersion content src : PyStr) (meta : List (PyStr × PyStr))
    (dbAtLookup dbAtCommit : DB)
    (hfresh : dbAtCommit.FreshIds) (hpaired : dbAtCommit.Paired) :
    (capture_content_at hashFn embed modelVersion content src meta
        dbAtLookup dbAtCommit).db.Paired ∧
    (∀ e, (capture_content_at hashFn embed modelVersion content src meta
        dbAtLookup dbAtCommit).result = .err e →
      (capture_content_at hashFn embed modelVersion content src meta
        dbAtLookup dbAtCommit).db = dbAtCommit) ∧
    (∀ e, dbAtLookup = dbAtCommit → embed (pyStrip content) = .err e →
      pyStrip content ≠ [] →
      dbAtLookup.lookupByHash (hashFn (pyStrip content)) = none →
      (capture_content_at hashFn embed modelVersion content src meta
          dbAtLookup dbAtCommit).db = dbAtCommit ∧
      (capture_content_at hashFn embed modelVersion content src meta
          dbAtLookup dbAtCommit).result = .err (.embedFailed e) ∧
      (capture_content_at hashFn embed modelVersion content src meta
          dbAtLookup dbAtCommit).db.lookupByHash (hashFn (pyStrip content)) = none) := by
  refine ⟨?_, ?_, ?_⟩
  · by_cases hstrip : pyStrip content = []
    · simpa [capture_content_at, hstrip] using hpaired
    · cases hlook : dbAtLookup.lookupByHash (hashFn (pyStrip content)) with
      | some existing =>
        simpa [capture_content_at, hstrip, hlook] using hpaired
      | none =>
        cases hemb : embed (pyStrip content) with
        | err e =>
          simpa [capture_content_at, hstrip, hlook, hemb] using hpaired
        | ok vec =>
          cases hcreate : dbAtCommit.atomicCreate (pyStrip content)
              (hashFn (pyStrip content)) src meta vec modelVersion with
          | created dbNew item =>
            have hinv := atomicCreate_invariants dbAtCommit (pyStrip content)
              (hashFn (pyStrip content)) src meta vec modelVersion dbNew item
              hfresh hpaired hcreate
            simpa [capture_content_at, hstrip, hlook, hemb, hcreate] using hinv.1
          | uniqueViolation =>
            simpa [capture_content_at, hstrip, hlook, hemb, hcreate] using hpaired
  · intro e herr
    by_cases hstrip : pyStrip content = []
    · simp [capture_content_at, hstrip]
    · cases hlook : dbAtLookup.lookupByHash (hashFn (pyStrip content)) with
      | some existing =>
        simp [capture_content_at, hstrip, hlook]
      | none =>
        cases hemb : embed (pyStrip content) with
        | err e' =>
          simp [capture_content_at, hstrip, hlook, hemb]
        | ok vec =>
          cases hcreate : dbAtCommit.atomicCreate (pyStrip content)
              (hashFn (pyStrip content)) src meta vec modelVersion with
          | created dbNew item =>
            simp [capture_content_at, hstrip, hlook, hemb, hcreate] at herr
          | uniqueViolation =>
            simp [capture_content_at, hstrip, hlook, hemb, hcreate]
  · intro e heq hemb hstrip hlook
    subst heq
    refine ⟨?_, ?_, ?_⟩
    · simp [capture_content_at, hstrip, hlook, hemb]
    · simp [capture_content_at, hstrip, hlook, hemb]
    · simp only [capture_content_at, if_neg hstrip]
      rw [hlook]
      simp only [hemb]
      exact hlook

/-- Witness for C3: on the empty store with a failing embedding
collaborator, capturing "Hello world" leaves the store empty and reports the
embedding failure. -/
theorem c3_atomicity_witness :
    (capture_content_at idHash failEmbed EMBEDDING_MODEL (pystr "Hello world")
        (pystr "manual_entry") [] emptyDB emptyDB).db = emptyDB ∧
    (capture_content_at idHash failEmbed EMBEDDING_MODEL (pystr "Hello world")
        (pystr "manual_entry") [] emptyDB emptyDB).result =
      .err (.embedFailed .unknownError) ∧
    (capture_content_at idHash failEmbed EMBEDDING_MODEL (pystr "Hello world")
        (pystr "manual_entry") [] emptyDB emptyDB).db.lookupByHash
      (idHash (pyStrip (pystr "Hello world"))) = none := by
  have h := (c3_atomicity idHash failEmbed EMBEDDING_MODEL (pystr "Hello world")
    (pystr "manual_entry") [] emptyDB emptyDB
    (by simp [DB.FreshIds, emptyDB]) (by simp [DB.Paired, emptyDB])).2.2
    .unknownError rfl rfl (by decide) (by decide)
  exact h

/-- C10: a capture (text or file) that finds an existing `ContentItem` with
the same content hash leaves the store entirely unchanged — the new
request's source, metadata, and filename are discarded and no new
`Embedding` row is written — and the response carries the original record's
id and `created_at` (with the status string "completed"). -/
theorem c10_duplicate_frame :
    (∀ hashFn embed modelVersion content src meta (db : DB) existing,
      pyStrip content ≠ [] →
      db.lookupByHash (hashFn (pyStrip content)) = some existing →
      capture_content hashFn embed modelVersion content src meta db =
        ⟨.ok ⟨existing.id, pystr "completed", existing.created_at⟩, db, [.hashCall]⟩) ∧
    (∀ hashFn embed modelVersion extractor filename fileContent declaredType (db : DB)
        extracted existing,
      computeExt filename ∈ SUPPORTED_EXTENSIONS →
      fileContent.length ≤ MAX_FILE_SIZE →
      extractor filename fileContent = .ok extracted →
      pyStrip extracted ≠ [] →
      db.lookupByHash (hashFn (pyStrip extracted)) = some existing →
      capture_file hashFn embed modelVersion extractor filename fileContent declaredType db =
        ⟨.ok ⟨existing.id, pystr "completed", filename, fileContent.length,
            computeExt filename, previewOf (pyStrip extracted), existing.created_at⟩,
          db, [.readBytes, .extractCall, .hashCall]⟩) := by
  constructor
  · intro hashFn embed modelVersion content src meta db existing hstrip hlook
    simp [capture_content, capture_content_at, hstrip, hlook]
  · intro hashFn embed modelVersion extractor filename fileContent declaredType db
      extracted existing hext hsize hx hstrip hlook
    rw [capture_file]
    simp only [if_neg (not_not_intro hext), if_neg (not_lt.mpr hsize), hx, hstrip, hlook]
    simp [hstrip, hlook]

/-- Witness for C10: re-capturing the text already stored as `demoItem`
returns its id and creation time and leaves `demoDB` untouched. -/
theorem c10_duplicate_frame_witness :
    capture_content idHash okEmbed EMBEDDING_MODEL (pystr "Hello world")
        (pystr "cli") [(pystr "k", pystr "v")] demoDB =
      ⟨.ok ⟨0, pystr "completed", 5⟩, demoDB, [.hashCall]⟩ := by
  have h := c10_duplicate_frame.1 idHash okEmbed EMBEDDING_MODEL (pystr "Hello world")
    (pystr "cli") [(pystr "k", pystr "v")] demoDB demoItem (by decide) (by decide)
  simpa [demoItem] using h

/-- Counterexample to C1 as stated: capturing "Hello world" twice returns
the first capture's identifier, but the second response's status is the
string "completed", not "already exists". -/
theorem c1_counterexample_status :
    ((capture_content idHash okEmbed EMBEDDING_MODEL (pystr "Hello world")
        (pystr "manual_entry") []
        (capture_content idHash okEmbed EMBEDDING_MODEL (pystr "Hello world")
          (pystr "manual_entry") [] emptyDB).db).result =
      .ok ⟨0, pystr "completed", 0⟩) ∧
    pystr "completed" ≠ pystr "already exists" := by
  constructor
  · decide
  · decide

/-- C1 (amended): for every text `T` that is non-empty after trimming, whose
hash is not yet stored, and whose embedding call succeeds, capturing `T`
twice yields exactly one `ContentItem` whose content equals the trimmed `T`;
the second capture returns the first capture's identifier and creation time
with status "completed" (the same status string as a fresh capture — no
distinct "already exists" status is surfaced), leaves the store unchanged,
and generates no new embedding (no embedding call occurs and the embeddings
table is unchanged). -/
theorem c1_dedup_amended (hashFn : PyStr → PyStr) (embed : PyStr → EmbedResult)
    (modelVersion T src1 src2 : PyStr) (meta1 meta2 : List (PyStr × PyStr))
    (db : DB) (v : List Rat)
    (hT : pyStrip T ≠ [])
    (hcons : db.HashConsistent hashFn)
    (hmiss : db.lookupByHash (hashFn (pyStrip T)) = none)
    (hembed : embed (pyStrip T) = .ok v) :
    ∃ item : ContentItem,
      (capture_content hashFn embed modelVersion T src1 meta1 db).result =
        .ok ⟨item.id, pystr "completed", item.created_at⟩ ∧
      item.content = pyStrip T ∧
      (capture_content hashFn embed modelVersion T src1 meta1 db).db.items.countP
        (fun it => it.content == pyStrip T) = 1 ∧
      capture_content hashFn embed modelVersion T src2 meta2
          (capture_content hashFn embed modelVersion T src1 meta1 db).db =
        ⟨.ok ⟨item.id, pystr "completed", item.created_at⟩,
          (capture_content hashFn embed modelVersion T src1 meta1 db).db,
          [.hashCall]⟩ := by
  have hany := lookup_none_any db (hashFn (pyStrip T)) hmiss
  have hmiss' : db.items.find? (fun it => it.content_hash == hashFn (pyStrip T)) = none := by
    simpa [DB.lookupByHash] using hmiss
  have hr1 : capture_content hashFn embed modelVersion T src1 meta1 db =
      ⟨.ok ⟨db.nextId, pystr "completed", db.now⟩,
        ⟨db.items ++ [⟨db.nextId, pyStrip T, hashFn (pyStrip T), src1, meta1, db.now⟩],
          db.embeddings ++ [⟨db.nextId + 1, db.nextId, v, modelVersion, db.now⟩],
          db.nextId + 2, db.now⟩,
        [.hashCall, .embedCall, .insertCall]⟩ := by
    simp [capture_content, capture_content_at, hT, hmiss, hembed, DB.atomicCreate, hany]
  have hfind : (db.items ++
      [(⟨db.nextId, pyStrip T, hashFn (pyStrip T), src1, meta1, db.now⟩ : ContentItem)]).find?
        (fun it => it.content_hash == hashFn (pyStrip T)) =
      some ⟨db.nextId, pyStrip T, hashFn (pyStrip T), src1, meta1, db.now⟩ := by
    rw [List.find?_append, hmiss']
    simp [List.find?_cons]
  have hcount : (db.items ++
      [(⟨db.nextId, pyStrip T, hashFn (pyStrip T), src1, meta1, db.now⟩ : ContentItem)]).countP
        (fun it => it.content == pyStrip T) = 1 := by
    rw [List.countP_append]
    have h0 : db.items.countP (fun it => it.content == pyStrip T) = 0 := by
      rw [List.countP_eq_zero]
      intro it hit
      have hne : it.content ≠ pyStrip T := by
        intro heq
        have hhash : it.content_hash = hashFn (pyStrip T) := by
          rw [hcons it hit, heq]
        have hbf := lookup_none_beq db (hashFn (pyStrip T)) hmiss it hit
        rw [hhash] at hbf
        simp at hbf
      simpa using beq_eq_false_iff_ne.mpr hne
    rw [h0]
    simp [List.countP_cons]
  refine ⟨⟨db.nextId, pyStrip T, hashFn (pyStrip T), src1, meta1, db.now⟩, ?_, rfl, ?_, ?_⟩
  · rw [hr1]
  · rw [hr1]
    exact hcount
  · rw [hr1]
    simp [capture_content, capture_content_at, hT, DB.lookupByHash, hfind]

/-- Witness for C1 (amended): the two-capture scenario run concretely from
the empty store. -/
theorem c1_dedup_amended_witness :
    ∃ item : ContentItem,
      (capture_content idHash okEmbed EMBEDDING_MODEL (pystr "Hello world")
        (pystr "manual_entry") [] emptyDB).result =
        .ok ⟨item.id, pystr "completed", item.created_at⟩ ∧
      item.content = pyStrip (pystr "Hello world") ∧
      (capture_content idHash okEmbed EMBEDDING_MODEL (pystr "Hello world")
        (pystr "manual_entry") [] emptyDB).db.items.countP
        (fun it => it.content == pyStrip (pystr "Hello world")) = 1 ∧
      capture_content idHash okEmbed EMBEDDING_MODEL (pystr "Hello world")
          (pystr "manual_entry") []
          (capture_content idHash okEmbed EMBEDDING_MODEL (pystr "Hello world")
            (pystr "manual_entry") [] emptyDB).db =
        ⟨.ok ⟨item.id, pystr "completed", item.created_at⟩,
          (capture_content idHash okEmbed EMBEDDING_MODEL (pystr "Hello world")
            (pystr "manual_entry") [] emptyDB).db,
          [.hashCall]⟩ :=
  c1_dedup_amended idHash okEmbed EMBEDDING_MODEL (pystr "Hello world")
    (pystr "manual_entry") (pystr "manual_entry") [] [] emptyDB []
    (by decide) (by simp [DB.HashConsistent, emptyDB]) (by decide) rfl

/-- C2 as implemented: when the atomic create hits the `content_hash`
uniqueness violation because a concurrent capture of the same content
committed between the dedup lookup and the commit, `capture_content` does
NOT re-query by hash: the generic `except Exception` arm rolls back and
answers HTTP 500 ("Failed to save capture"), even though a lookup at that
moment would find the winning record.  This contradicts the claim, which
the spec itself mandates (sections 4.3 and 9); the code is the slip. -/
theorem c2_race_surfaced_as_error :
    capture_content_at idHash okEmbed EMBEDDING_MODEL (pystr "Hello world")
        (pystr "manual_entry") [] emptyDB demoDB =
      ⟨.err .storeFailed, demoDB, [.hashCall, .embedCall, .insertCall]⟩ ∧
    CaptureError.storeFailed.statusCode = 500 ∧
    demoDB.lookupByHash (idHash (pyStrip (pystr "Hello world"))) = some demoItem := by
  refine ⟨by decide, by decide, by decide⟩

/-- C6: file-capture validation ordering.  An unsupported filename suffix is
rejected (naming the allowed suffixes) with an empty event trace — before
the file's bytes are read — and an oversized file is rejected with the
10 MB limit stated in the error, with only the byte-read event — before any
extraction is attempted. -/
theorem c6_validation_ordering :
    (∀ hashFn embed modelVersion extractor filename fileContent declaredType (db : DB),
      computeExt filename ∉ SUPPORTED_EXTENSIONS →
      capture_file hashFn embed modelVersion extractor filename fileContent declaredType db =
        ⟨.err (.unsupportedType (computeExt filename) SUPPORTED_EXTENSIONS), db, []⟩) ∧
    (∀ hashFn embed modelVersion extractor filename fileContent declaredType (db : DB),
      computeExt filename ∈ SUPPORTED_EXTENSIONS →
      fileContent.length > MAX_FILE_SIZE →
      capture_file hashFn embed modelVersion extractor filename fileContent declaredType db =
        ⟨.err (.payloadTooLarge (fileContent.length / (1024 * 1024)) 10), db,
          [.readBytes]⟩) := by
  constructor
  · intro hashFn embed modelVersion extractor filename fileContent declaredType db h
    simp [capture_file, h]
  · intro hashFn embed modelVersion extractor filename fileContent declaredType db hmem hsize
    have hdiv : MAX_FILE_SIZE / (1024 * 1024) = 10 := by decide
    simp [capture_file, hmem, hsize, hdiv]

/-- Witness for C6: `evil.exe` is rejected with no bytes read, and a
10 MB + 1 byte upload is rejected with the limit stated and no extraction. -/
theorem c6_validation_ordering_witness :
    (capture_file idHash okEmbed EMBEDDING_MODEL (fun _ _ => .ok [])
        (pystr "evil.exe") [] (pystr "application/octet-stream") emptyDB =
      ⟨.err (.unsupportedType (pystr ".exe") SUPPORTED_EXTENSIONS), emptyDB, []⟩) ∧
    (capture_file idHash okEmbed EMBEDDING_MODEL (fun _ _ => .ok [])
        (pystr "big.txt") (List.replicate (MAX_FILE_SIZE + 1) 0)
        (pystr "text/plain") emptyDB =
      ⟨.err (.payloadTooLarge 10 10), emptyDB, [.readBytes]⟩) := by
  constructor
  · have h := c6_validation_ordering.1 idHash okEmbed EMBEDDING_MODEL (fun _ _ => .ok [])
      (pystr "evil.exe") [] (pystr "application/octet-stream") emptyDB (by decide)
    have hx : computeExt (pystr "evil.exe") = pystr ".exe" := by decide
    rw [hx] at h
    exact h
  · have h := c6_validation_ordering.2 idHash okEmbed EMBEDDING_MODEL (fun _ _ => .ok [])
      (pystr "big.txt") (List.replicate (MAX_FILE_SIZE + 1) 0) (pystr "text/plain") emptyDB
      (by decide)
      (by rw [List.length_replicate]; exact Nat.lt_succ_self _)
    rw [List.length_replicate] at h
    have hdiv : (MAX_FILE_SIZE + 1) / (1024 * 1024) = 10 := by decide
    rw [hdiv] at h
    exact h

/-- C7: an uploaded file whose extraction succeeds but whose extracted text
is empty after trimming is rejected with the dedicated empty-extraction 422
error — a constructor distinct from the internal extraction failure — and
the run performs no hashing, no embedding call, and no insert, leaving the
store unchanged. -/
theorem c7_empty_extraction :
    (∀ hashFn embed modelVersion extractor filename fileContent declaredType (db : DB)
        extracted,
      computeExt filename ∈ SUPPORTED_EXTENSIONS →
      fileContent.length ≤ MAX_FILE_SIZE →
      extractor filename fileContent = .ok extracted →
      pyStrip extracted = [] →
      capture_file hashFn embed modelVersion extractor filename fileContent declaredType db =
        ⟨.err .emptyExtracted, db, [.readBytes, .extractCall]⟩) ∧
    (∀ msg, CaptureError.emptyExtracted ≠ .extractionFailed msg) ∧
    CaptureError.emptyExtracted.statusCode = 422 := by
  refine ⟨?_, ?_, rfl⟩
  · intro hashFn embed modelVersion extractor filename fileContent declaredType db
      extracted hmem hsize hx hstrip
    rw [capture_file]
    simp only [if_neg (not_not_intro hmem), if_neg (not_lt.mpr hsize), hx, hstrip]
    simp [hstrip]
  · intro msg h
    cases h

/-- Witness for C7: a whitespace-only `.txt` upload is rejected with the
empty-extraction error and the store stays empty. -/
theorem c7_empty_extraction_witness :
    capture_file idHash okEmbed EMBEDDING_MODEL (fun _ _ => .ok (pystr "   "))
        (pystr "blank.txt") [32, 32, 32] (pystr "text/plain") emptyDB =
      ⟨.err .emptyExtracted, emptyDB, [.readBytes, .extractCall]⟩ :=
  c7_empty_extraction.1 idHash okEmbed EMBEDDING_MODEL (fun _ _ => .ok (pystr "   "))
    (pystr "blank.txt") [32, 32, 32] (pystr "text/plain") emptyDB (pystr "   ")
    (by decide) (by decide) rfl (by decide)

/-- C9: a filename with no "." character yields the empty-string suffix,
which is not in the allowlist, so the upload is rejected as unsupported
(HTTP 415) with an empty event trace — before the file's bytes are read. -/
theorem c9_no_dot_filename (hashFn : PyStr → PyStr) (embed : PyStr → EmbedResult)
    (modelVersion : PyStr) (extractor : PyStr → List Nat → ExtractOutcome)
    (filename : PyStr) (fileContent : List Nat) (declaredType : PyStr) (db : DB)
    (hnodot : filename.contains '.' = false) :
    computeExt filename = [] ∧
    capture_file hashFn embed modelVersion extractor filename fileContent declaredType db =
      ⟨.err (.unsupportedType [] SUPPORTED_EXTENSIONS), db, []⟩ ∧
    (CaptureError.unsupportedType [] SUPPORTED_EXTENSIONS).statusCode = 415 := by
  have hext : computeExt filename = [] := by
    have h2 : '.' ∉ filename := by
      simpa using hnodot
    simp [computeExt, h2]
  refine ⟨hext, ?_, rfl⟩
  rw [capture_file]
  simp only [hext]
  rw [if_pos (by decide : (([] : PyStr) ∉ SUPPORTED_EXTENSIONS))]

/-- Witness for C9: uploading a file named `README` is rejected as
unsupported with no bytes read. -/
theorem c9_no_dot_filename_witness :
    computeExt (pystr "README") = [] ∧
    capture_file idHash okEmbed EMBEDDING_MODEL (fun _ _ => .ok [])
        (pystr "README") [104, 105] (pystr "text/plain") emptyDB =
      ⟨.err (.unsupportedType [] SUPPORTED_EXTENSIONS), emptyDB, []⟩ ∧
    (CaptureError.unsupportedType [] SUPPORTED_EXTENSIONS).statusCode = 415 :=
  c9_no_dot_filename idHash okEmbed EMBEDDING_MODEL (fun _ _ => .ok [])
    (pystr "README") [104, 105] (pystr "text/plain") emptyDB (by decide)

end D8
